import Mathlib

/-!
Verification of the VRG serial driver (src/src/model/vrg_driver.py).

The driver class `VRG` wraps one optional serial connection plus cached
configuration (hard frequency limits, cached allowed frequency window, max
power).  Every operation funnels through `_send_command` (write only) or
`_send_query` (reset input buffer, write, read, retry while the response
contains the firmware's unsolicited "target" spam).

Embedding conventions:
- Python numbers (int | float arguments) are `PyVal`; floats are modelled as
  exact rationals, and every concrete counterexample below uses a dyadic
  rational so that the same value is exactly representable as an IEEE double.
- `int(x)` on a number is `ratTrunc` (truncation toward zero).
- Device interaction for queries is modelled by the list of lines the serial
  port yields (after decode/strip); a read past the end of the list models a
  read timeout, which `read_until` surfaces as an empty line, never an error.
- The transport write itself is modelled as succeeding; the claims under
  verification are about which bytes are written (or that none are), not
  about transport faults during a write.
- Errors are modelled by `Except`/`SetResult.error`; a Python `raise` before
  any port use corresponds to producing the error with an empty trace.
-/

/-- Python argument value as passed to a driver setter: an `int`, a `float`
(modelled as an exact rational), or a value of any other type. -/
inductive PyVal where
  | int : Int → PyVal
  | float : Rat → PyVal
  | other : PyVal
deriving DecidableEq

/-- Numeric view of a `PyVal`: `isinstance(value, int | float)` succeeds
exactly when this is `some`. -/
def PyVal.toNum : PyVal → Option Rat
  | .int i => some (i : Rat)
  | .float x => some x
  | .other => none

/-- Truncation toward zero, the semantics of Python `int()` on a number. -/
def ratTrunc (q : Rat) : Int :=
  if 0 ≤ q.num then Rat.floor q else -(Rat.floor (-q))

theorem ratFloor_eq_floor (q : ℚ) : Rat.floor q = ⌊q⌋ := by
  rw [Rat.floor_def, Rat.floor_def']

theorem ratTrunc_eq (q : ℚ) : ratTrunc q = if 0 ≤ q then ⌊q⌋ else ⌈q⌉ := by
  unfold ratTrunc
  rw [ratFloor_eq_floor, ratFloor_eq_floor]
  have hnum : 0 ≤ q.num ↔ 0 ≤ q := Rat.num_nonneg
  by_cases h : 0 ≤ q
  · rw [if_pos (hnum.mpr h), if_pos h]
  · rw [if_neg (fun hc => h (hnum.mp hc)), if_neg h, Int.floor_neg, neg_neg]

theorem ratTrunc_le_of_le (q : ℚ) (n : ℤ) (h : q ≤ (n : ℚ)) : ratTrunc q ≤ n := by
  rw [ratTrunc_eq]
  split
  · exact le_trans (Int.floor_le_ceil q) (Int.ceil_le.mpr h)
  · exact Int.ceil_le.mpr h

theorem le_ratTrunc_of_le (q : ℚ) (n : ℤ) (h : (n : ℚ) ≤ q) : n ≤ ratTrunc q := by
  rw [ratTrunc_eq]
  split
  · exact Int.le_floor.mpr h
  · exact le_trans (Int.le_floor.mpr h) (Int.floor_le_ceil q)

/-- Decimal digit list of a natural number (most significant first), the
digits produced by Python's `d` format conversion.  Fuel-based recursion;
`n + 1` units of fuel always suffice since the argument shrinks by a factor
of ten each step. -/
def natDigitsAux : Nat → Nat → List Char
  | 0, _ => []
  | fuel + 1, n =>
    if n = 0 then [] else natDigitsAux fuel (n / 10) ++ [Nat.digitChar (n % 10)]

def natDigits (n : Nat) : List Char :=
  if n = 0 then ['0'] else natDigitsAux (n + 1) n

/-- Zero pad a natural number to a minimum width, Python `f'{n:0wd}'` for a
nonnegative value: pad on the left with the character '0'. -/
def padZeroNat (w : Nat) (n : Nat) : String :=
  ⟨List.replicate (w - (natDigits n).length) '0' ++ natDigits n⟩

/-- Python `f'{i:0wd}'` on an arbitrary integer: the sign, when present,
counts toward the requested width. -/
def padZeroInt (w : Nat) (i : Int) : String :=
  if 0 ≤ i then padZeroNat w i.toNat
  else "-" ++ padZeroNat (w - 1) (-i).toNat

/-- Serial port handle: the only observable the driver tests on it before
I/O is `is_open`. -/
structure SerialPort where
  is_open : Bool
deriving DecidableEq

/-- Driver state: the fields of a `VRG` instance that the verified
operations read or mutate (`serial_port`, the hard frequency limits and
`_max_power` fixed at construction, and the cached allowed frequency
window `_min_freq`/`_max_freq`). -/
structure VRGState where
  serial_port : Option SerialPort
  min_freq_hard_limit : Rat
  max_freq_hard_limit : Rat
  max_power : Int
  min_freq : Rat
  max_freq : Rat
deriving DecidableEq

/-- Error kinds raised by the driver, as the spec's taxonomy names them:
`notConnected` is the RuntimeError raised when no open port exists,
`typeError`/`valueError` are the validation failures. -/
inductive VrgError where
  | notConnected
  | typeError
  | valueError
deriving DecidableEq

/-- Whether an open connection exists: `self.serial_port` is set and
`self.serial_port.is_open` holds (the test guarding `_send_command` and
`_send_query`). -/
def connOpen (st : VRGState) : Bool :=
  match st.serial_port with
  | none => false
  | some sp => sp.is_open

/-- Append the carriage return terminator unless the string already ends
with it: the `command.endswith(self._term_char)` handling shared by
`_send_command` and `_send_query`. -/
def appendTerm (s : String) : String :=
  if s.data.getLast? == some '\r' then s else s ++ "\r"

/-- Embedding of `VRG._send_command`: check the connection, terminate the
command, write it.  On success the returned list is the sequence of strings
written to the wire; the connection error is raised before any port use, so
an error result carries no writes. -/
def send_command (st : VRGState) (command : String) : Except VrgError (List String) :=
  match st.serial_port with
  | none => .error .notConnected
  | some sp =>
    if sp.is_open then .ok [appendTerm command]
    else .error .notConnected

/-- Transport operation performed during a query exchange. -/
inductive TOp where
  | resetInput
  | write : String → TOp
  | readLine : String → TOp
deriving DecidableEq

/-- Whether the pattern is a prefix of the text (character lists). -/
def charsLead : List Char → List Char → Bool
  | [], _ => true
  | _ :: _, [] => false
  | a :: asc, b :: bs => a == b && charsLead asc bs

/-- Substring containment on character lists, the semantics of Python's
`needle in haystack` on strings. -/
def containsSub (needle : List Char) : List Char → Bool
  | [] => charsLead needle []
  | c :: t => charsLead needle (c :: t) || containsSub needle t

/-- The test `'target' in response` from `_send_query`'s retry loop. -/
def hasTarget (s : String) : Bool :=
  containsSub "target".data s.data

/-- The retry loop of `_send_query`: while the current line contains the
marker, discard buffered input, resend the query, read again.  `rest` is
the remaining lines the port will yield; reading past its end models a
read timeout, which yields an empty line. -/
def queryRetry (q : String) : String → List String → String × List TOp
  | response, rest =>
    if hasTarget response then
      match rest with
      | [] => ("", [TOp.resetInput, TOp.write q, TOp.readLine ""])
      | r :: rs =>
        let p := queryRetry q r rs
        (p.1, TOp.resetInput :: TOp.write q :: TOp.readLine r :: p.2)
    else (response, [])

/-- Embedding of `VRG._send_query`: check the connection, terminate the
query, then reset the input buffer, write the query and read a line,
retrying through `queryRetry` while the line contains the marker.  Returns
the line handed to the caller and the full transport trace. -/
def send_query (st : VRGState) (query : String) (responses : List String) :
    Except VrgError (String × List TOp) :=
  match st.serial_port with
  | none => .error .notConnected
  | some sp =>
    if sp.is_open then
      let q := appendTerm query
      match responses with
      | [] =>
        let p := queryRetry q "" []
        .ok (p.1, TOp.resetInput :: TOp.write q :: TOp.readLine "" :: p.2)
      | r :: rs =>
        let p := queryRetry q r rs
        .ok (p.1, TOp.resetInput :: TOp.write q :: TOp.readLine r :: p.2)
    else .error .notConnected

/-- The `GS` exchange underlying the `status_byte` property (the numeric
parse of the returned line happens afterwards, outside `_send_query`). -/
def status_byte_exchange (st : VRGState) (responses : List String) :
    Except VrgError (String × List TOp) :=
  send_query st "GS" responses

/-- Embedding of the `power` setter: reject non-`int` arguments, validate
`0 <= value <= self._max_power`, then send `SP` plus the value zero padded
to four digits.  The `ok` payload lists the strings written. -/
def set_power (st : VRGState) : PyVal → Except VrgError (List String)
  | .int v =>
    if 0 ≤ v ∧ v ≤ st.max_power then send_command st ("SP" ++ padZeroInt 4 v)
    else .error .valueError
  | _ => .error .typeError

/-- Numeric core of the `freq` setter: validate the cached allowed window,
convert to kHz with `int(value * 1000)`, send `SF` plus the kHz value zero
padded to five digits.  The `ok` payload is the device's new frequency
setting in kHz together with the strings written. -/
def set_freq_num (st : VRGState) (v : Rat) : Except VrgError (Int × List String) :=
  if st.min_freq ≤ v ∧ v ≤ st.max_freq then
    match send_command st ("SF" ++ padZeroInt 5 (ratTrunc (v * 1000))) with
    | .error e => .error e
    | .ok w => .ok (ratTrunc (v * 1000), w)
  else .error .valueError

/-- Embedding of the `freq` setter (type check then `set_freq_num`). -/
def set_freq (st : VRGState) : PyVal → Except VrgError (Int × List String)
  | .int i => set_freq_num st (i : Rat)
  | .float x => set_freq_num st x
  | .other => .error .typeError

/-- Embedding of the `freq` getter: query `RQ`; the device is modelled as
answering with its current frequency setting in kHz (an integer, as set by
a previous `SF`), which the driver parses and scales by `1e-3`. -/
def get_freq (st : VRGState) (devKHz : Int) : Except VrgError (Rat × List String) :=
  match st.serial_port with
  | none => .error .notConnected
  | some sp =>
    if sp.is_open then .ok ((devKHz : Rat) * (1 / 1000), ["RQ\r"])
    else .error .notConnected

/-- Result of a frequency window setter: the error raised (if any), the
driver state after the call, the device's frequency setting in kHz after
the call, and the strings written to the wire.  A Python `raise` after the
`S1`/`S2` write leaves the already performed mutations in place, which this
shape records faithfully. -/
structure SetResult where
  error : Option VrgError
  state : VRGState
  devKHz : Int
  writes : List String
deriving DecidableEq

/-- Numeric core of the `min_freq` setter: validate against the hard
limits only, send `S1` plus the kHz bound, update the cached `_min_freq`,
then read the device frequency and, when it is below the new minimum,
set the frequency to the new minimum. -/
def set_min_freq_num (st : VRGState) (devKHz : Int) (v : Rat) : SetResult :=
  if st.min_freq_hard_limit ≤ v ∧ v ≤ st.max_freq_hard_limit then
    match send_command st ("S1" ++ padZeroInt 5 (ratTrunc (v * 1000))) with
    | .error e => { error := some e, state := st, devKHz := devKHz, writes := [] }
    | .ok w1 =>
      let st1 := { st with min_freq := v }
      match get_freq st1 devKHz with
      | .error e => { error := some e, state := st1, devKHz := devKHz, writes := w1 }
      | .ok (devMHz, w2) =>
        if devMHz < st1.min_freq then
          match set_freq st1 (.float st1.min_freq) with
          | .error e =>
            { error := some e, state := st1, devKHz := devKHz, writes := w1 ++ w2 }
          | .ok (k, w3) =>
            { error := none, state := st1, devKHz := k, writes := w1 ++ w2 ++ w3 }
        else { error := none, state := st1, devKHz := devKHz, writes := w1 ++ w2 }
  else { error := some .valueError, state := st, devKHz := devKHz, writes := [] }

/-- Embedding of the `min_freq` setter (type check then the numeric core). -/
def set_min_freq (st : VRGState) (devKHz : Int) : PyVal → SetResult
  | .int i => set_min_freq_num st devKHz (i : Rat)
  | .float x => set_min_freq_num st devKHz x
  | .other => { error := some .typeError, state := st, devKHz := devKHz, writes := [] }

/-- Numeric core of the `max_freq` setter, symmetric to
`set_min_freq_num`: `S2`, update `_max_freq`, and lower the device
frequency when it exceeds the new maximum. -/
def set_max_freq_num (st : VRGState) (devKHz : Int) (v : Rat) : SetResult :=
  if st.min_freq_hard_limit ≤ v ∧ v ≤ st.max_freq_hard_limit then
    match send_command st ("S2" ++ padZeroInt 5 (ratTrunc (v * 1000))) with
    | .error e => { error := some e, state := st, devKHz := devKHz, writes := [] }
    | .ok w1 =>
      let st1 := { st with max_freq := v }
      match get_freq st1 devKHz with
      | .error e => { error := some e, state := st1, devKHz := devKHz, writes := w1 }
      | .ok (devMHz, w2) =>
        if st1.max_freq < devMHz then
          match set_freq st1 (.float st1.max_freq) with
          | .error e =>
            { error := some e, state := st1, devKHz := devKHz, writes := w1 ++ w2 }
          | .ok (k, w3) =>
            { error := none, state := st1, devKHz := k, writes := w1 ++ w2 ++ w3 }
        else { error := none, state := st1, devKHz := devKHz, writes := w1 ++ w2 }
  else { error := some .valueError, state := st, devKHz := devKHz, writes := [] }

/-- Embedding of the `max_freq` setter (type check then the numeric core). -/
def set_max_freq (st : VRGState) (devKHz : Int) : PyVal → SetResult
  | .int i => set_max_freq_num st devKHz (i : Rat)
  | .float x => set_max_freq_num st devKHz x
  | .other => { error := some .typeError, state := st, devKHz := devKHz, writes := [] }

/-- Embedding of the `min_freq` getter: query `R1`, parse the reported kHz
value, scale by `1e-3` and overwrite the cached `_min_freq` with it
unconditionally. -/
def get_min_freq (st : VRGState) (respKHz : Rat) :
    Except VrgError (VRGState × Rat × List String) :=
  match st.serial_port with
  | none => .error .notConnected
  | some sp =>
    if sp.is_open then
      .ok ({ st with min_freq := respKHz * (1 / 1000) }, respKHz * (1 / 1000), ["R1\r"])
    else .error .notConnected

/-- Embedding of the `max_freq` getter: query `R2` and overwrite the cached
`_max_freq` with the reported value, unconditionally. -/
def get_max_freq (st : VRGState) (respKHz : Rat) :
    Except VrgError (VRGState × Rat × List String) :=
  match st.serial_port with
  | none => .error .notConnected
  | some sp =>
    if sp.is_open then
      .ok ({ st with max_freq := respKHz * (1 / 1000) }, respKHz * (1 / 1000), ["R2\r"])
    else .error .notConnected

/-- Embedding of the static `open_connection`: call the serial constructor
on the uppercased port name; hand back the port on success, and on any
constructor exception print a message and return `None` (the exception is
swallowed, never propagated). -/
def open_connection (port : String) (serialCtor : String → Except String SerialPort) :
    Option SerialPort :=
  match serialCtor port.toUpper with
  | .ok sp => some sp
  | .error _ => none

/-- Python `bin(n)` for a nonnegative argument: the characters `0b`
followed by the binary digits. -/
def pyBin (n : Nat) : List Char :=
  '0' :: 'b' :: Nat.toDigits 2 n

/-- Python negative string indexing `s[-k]` (defined for `1 ≤ k ≤ len`). -/
def pyNegIndex (l : List Char) (k : Nat) : Option Char :=
  if 1 ≤ k ∧ k ≤ l.length then l.get? (l.length - k) else none

/-- Embedding of the `is_enabled` decode: third character from the end of
`bin(status)` compared with '1'. -/
def is_enabled (s : Nat) : Bool :=
  pyNegIndex (pyBin s) 3 == some '1'

/-- Embedding of the `is_overtemp` decode: second character from the end of
`bin(status)` compared with '1'. -/
def is_overtemp (s : Nat) : Bool :=
  pyNegIndex (pyBin s) 2 == some '1'

/-- Embedding of the `is_interlocked` decode: last character of
`bin(status)` compared with '1'. -/
def is_interlocked (s : Nat) : Bool :=
  pyNegIndex (pyBin s) 1 == some '1'

/-- Specification-side function for the query protocol: the first line of
the response stream free of the marker (an exhausted stream reads as the
empty line, which is clean). -/
def firstCleanLineSpec : List String → String
  | [] => ""
  | r :: rs => if hasTarget r then firstCleanLineSpec rs else r

/-- Specification-side transport trace of a query: one reset/write/read
round per line, up to and including the first clean line. -/
def retryTraceSpec (q : String) : List String → List TOp
  | [] => [TOp.resetInput, TOp.write q, TOp.readLine ""]
  | r :: rs =>
    TOp.resetInput :: TOp.write q :: TOp.readLine r ::
      (if hasTarget r then retryTraceSpec q rs else [])

/-- Specification-side rounding to the nearest integer (ties upward): the
`round(f * 1000)` the spec's property list prescribes for the frequency
setter.  At every input that is not an exact tie this agrees with any
round-to-nearest convention, including Python's. -/
def ratRoundSpec (q : Rat) : Int :=
  Rat.floor (q + 1 / 2)

/-- An open serial port handle. -/
def spOpen : SerialPort := { is_open := true }

/-- Connected driver at the factory defaults: hard limits 25 to 42 MHz,
allowed window initialised to the hard limits, max power 800 W. -/
def stD : VRGState :=
  { serial_port := some spOpen, min_freq_hard_limit := 25, max_freq_hard_limit := 42
    max_power := 800, min_freq := 25, max_freq := 42 }

/-- Connected driver whose allowed window has been narrowed to
25 to 30 MHz (reachable from `stD` by a successful `max_freq = 30`). -/
def stC : VRGState :=
  { serial_port := some spOpen, min_freq_hard_limit := 25, max_freq_hard_limit := 42
    max_power := 800, min_freq := 25, max_freq := 30 }

/-- Connected driver configured with `max_power = 1000` (the spec's
`set_power(1200)` scenario). -/
def stP : VRGState :=
  { serial_port := some spOpen, min_freq_hard_limit := 25, max_freq_hard_limit := 42
    max_power := 1000, min_freq := 25, max_freq := 42 }

/-- Driver constructed without a COM port: no connection exists. -/
def stNone : VRGState :=
  { serial_port := none, min_freq_hard_limit := 25, max_freq_hard_limit := 42
    max_power := 800, min_freq := 25, max_freq := 42 }

instance {α β : Type} [DecidableEq α] [DecidableEq β] : DecidableEq (Except α β)
  | .error a, .error b =>
    if h : a = b then .isTrue (by rw [h]) else .isFalse (by intro hc; cases hc; exact h rfl)
  | .error _, .ok _ => .isFalse (by intro hc; cases hc)
  | .ok _, .error _ => .isFalse (by intro hc; cases hc)
  | .ok a, .ok b =>
    if h : a = b then .isTrue (by rw [h]) else .isFalse (by intro hc; cases hc; exact h rfl)

theorem data_append (s t : String) : (s ++ t).data = s.data ++ t.data := by
  cases s; cases t; rfl

theorem natDigitsAux_mem (fuel : Nat) :
    ∀ n c, c ∈ natDigitsAux fuel n → ∃ d, d < 10 ∧ c = Nat.digitChar d := by
  induction fuel with
  | zero => intro n c h; simp [natDigitsAux] at h
  | succ f ih =>
    intro n c h
    rw [natDigitsAux] at h
    by_cases hn : n = 0
    · rw [if_pos hn] at h; simp at h
    · rw [if_neg hn] at h
      rcases List.mem_append.mp h with h1 | h2
      · exact ih _ _ h1
      · rw [List.mem_singleton.mp h2]
        exact ⟨n % 10, Nat.mod_lt n (by norm_num), rfl⟩

theorem natDigits_ne_nil (n : Nat) : natDigits n ≠ [] := by
  unfold natDigits
  by_cases hn : n = 0
  · rw [if_pos hn]; simp
  · rw [if_neg hn, natDigitsAux, if_neg hn]
    simp

theorem natDigits_mem (n : Nat) (c : Char) (h : c ∈ natDigits n) :
    ∃ d, d < 10 ∧ c = Nat.digitChar d := by
  unfold natDigits at h
  by_cases hn : n = 0
  · rw [if_pos hn] at h
    rw [List.mem_singleton.mp h]
    exact ⟨0, by norm_num, rfl⟩
  · rw [if_neg hn] at h
    exact natDigitsAux_mem _ _ _ h

theorem digitChar_ne_cr (d : Nat) (hd : d < 10) : Nat.digitChar d ≠ '\r' := by
  interval_cases d <;> decide

theorem padZeroNat_getLast (w n : Nat) :
    ∃ c, (padZeroNat w n).data.getLast? = some c ∧ c ≠ '\r' := by
  have hne := natDigits_ne_nil n
  refine ⟨(natDigits n).getLast hne, ?_, ?_⟩
  · show (List.replicate _ '0' ++ natDigits n).getLast? = _
    rw [List.getLast?_append_of_ne_nil _ hne]
    exact List.getLast?_eq_getLast _ hne
  · obtain ⟨d, hd, hc⟩ := natDigits_mem n _ (List.getLast_mem hne)
    rw [hc]
    exact digitChar_ne_cr d hd

theorem padZeroInt_getLast (w : Nat) (i : Int) :
    ∃ c, (padZeroInt w i).data.getLast? = some c ∧ c ≠ '\r' := by
  unfold padZeroInt
  by_cases hi : 0 ≤ i
  · rw [if_pos hi]; exact padZeroNat_getLast _ _
  · rw [if_neg hi]
    obtain ⟨c, hc, hcr⟩ := padZeroNat_getLast (w - 1) (-i).toNat
    have hne : (padZeroNat (w - 1) (-i).toNat).data ≠ [] := by
      intro h
      rw [h] at hc
      simp at hc
    refine ⟨c, ?_, hcr⟩
    rw [data_append, List.getLast?_append_of_ne_nil _ hne]
    exact hc

theorem appendTerm_cmd (pre : String) (w : Nat) (i : Int) :
    appendTerm (pre ++ padZeroInt w i) = pre ++ padZeroInt w i ++ "\r" := by
  obtain ⟨c, hc, hcr⟩ := padZeroInt_getLast w i
  have hne : (padZeroInt w i).data ≠ [] := by
    intro h
    rw [h] at hc
    simp at hc
  unfold appendTerm
  rw [data_append, List.getLast?_append_of_ne_nil _ hne, hc]
  have hb : (some c == some '\r') = false := by
    simp [hcr]
  rw [hb]
  simp

theorem send_command_connected (st : VRGState) (sp : SerialPort) (c : String)
    (hsp : st.serial_port = some sp) (hop : sp.is_open = true) :
    send_command st c = .ok [appendTerm c] := by
  unfold send_command
  rw [hsp]
  dsimp only
  rw [hop]
  simp

theorem get_freq_connected (st : VRGState) (sp : SerialPort) (dev : Int)
    (hsp : st.serial_port = some sp) (hop : sp.is_open = true) :
    get_freq st dev = .ok ((dev : ℚ) * (1 / 1000), ["RQ\r"]) := by
  unfold get_freq
  rw [hsp]
  dsimp only
  rw [hop]
  simp

theorem hasTarget_empty : hasTarget "" = false := by decide

theorem hasTarget_firstClean (l : List String) :
    hasTarget (firstCleanLineSpec l) = false := by
  induction l with
  | nil => exact hasTarget_empty
  | cons r rs ih =>
    rw [firstCleanLineSpec]
    by_cases h : hasTarget r = true
    · rw [if_pos h]; exact ih
    · rw [if_neg h]
      cases hb : hasTarget r with
      | false => rfl
      | true => exact absurd hb h

theorem queryRetry_eq_spec (q : String) (rs : List String) :
    ∀ r, queryRetry q r rs =
      (firstCleanLineSpec (r :: rs), if hasTarget r then retryTraceSpec q rs else []) := by
  induction rs with
  | nil =>
    intro r
    by_cases h : hasTarget r = true
    · simp [queryRetry, firstCleanLineSpec, retryTraceSpec, h]
    · simp [queryRetry, firstCleanLineSpec, h]
  | cons r2 rs2 ih =>
    intro r
    by_cases h : hasTarget r = true
    · simp [queryRetry, firstCleanLineSpec, retryTraceSpec, h, ih r2]
    · simp [queryRetry, firstCleanLineSpec, h]

theorem send_query_connected (st : VRGState) (sp : SerialPort) (q : String)
    (responses : List String) (hsp : st.serial_port = some sp) (hop : sp.is_open = true) :
    send_query st q responses =
      .ok (firstCleanLineSpec responses, retryTraceSpec (appendTerm q) responses) := by
  unfold send_query
  rw [hsp]
  dsimp only
  rw [hop]
  cases responses with
  | nil =>
    simp [queryRetry, firstCleanLineSpec, retryTraceSpec, hasTarget_empty]
  | cons r rs =>
    simp only [if_pos rfl, queryRetry_eq_spec]
    by_cases h : hasTarget r = true
    · simp [firstCleanLineSpec, retryTraceSpec, h]
    · simp [firstCleanLineSpec, retryTraceSpec, h]

theorem set_min_freq_num_reject (st : VRGState) (dev : Int) (v : ℚ)
    (h : ¬(st.min_freq_hard_limit ≤ v ∧ v ≤ st.max_freq_hard_limit)) :
    set_min_freq_num st dev v =
      { error := some .valueError, state := st, devKHz := dev, writes := [] } := by
  unfold set_min_freq_num
  rw [if_neg h]

theorem set_max_freq_num_reject (st : VRGState) (dev : Int) (v : ℚ)
    (h : ¬(st.min_freq_hard_limit ≤ v ∧ v ≤ st.max_freq_hard_limit)) :
    set_max_freq_num st dev v =
      { error := some .valueError, state := st, devKHz := dev, writes := [] } := by
  unfold set_max_freq_num
  rw [if_neg h]

theorem set_min_freq_num_noadjust (st : VRGState) (sp : SerialPort) (dev : Int) (v : ℚ)
    (hsp : st.serial_port = some sp) (hop : sp.is_open = true)
    (hlo : st.min_freq_hard_limit ≤ v) (hhi : v ≤ st.max_freq_hard_limit)
    (hdev : ¬((dev : ℚ) * (1 / 1000) < v)) :
    set_min_freq_num st dev v =
      { error := none, state := { st with min_freq := v }, devKHz := dev,
        writes := ["S1" ++ padZeroInt 5 (ratTrunc (v * 1000)) ++ "\r", "RQ\r"] } := by
  unfold set_min_freq_num
  rw [if_pos ⟨hlo, hhi⟩, send_command_connected st sp _ hsp hop, appendTerm_cmd]
  dsimp only
  rw [get_freq_connected { st with min_freq := v } sp dev hsp hop]
  dsimp only
  rw [if_neg hdev]
  rfl

theorem set_min_freq_num_adjust (st : VRGState) (sp : SerialPort) (dev : Int) (v : ℚ)
    (hsp : st.serial_port = some sp) (hop : sp.is_open = true)
    (hlo : st.min_freq_hard_limit ≤ v) (hhi : v ≤ st.max_freq_hard_limit)
    (hdev : (dev : ℚ) * (1 / 1000) < v) (hnest : v ≤ st.max_freq) :
    set_min_freq_num st dev v =
      { error := none, state := { st with min_freq := v }, devKHz := ratTrunc (v * 1000),
        writes := ["S1" ++ padZeroInt 5 (ratTrunc (v * 1000)) ++ "\r", "RQ\r",
                   "SF" ++ padZeroInt 5 (ratTrunc (v * 1000)) ++ "\r"] } := by
  unfold set_min_freq_num
  rw [if_pos ⟨hlo, hhi⟩, send_command_connected st sp _ hsp hop, appendTerm_cmd]
  dsimp only
  rw [get_freq_connected { st with min_freq := v } sp dev hsp hop]
  dsimp only
  rw [if_pos hdev]
  show (match set_freq_num { st with min_freq := v } v with
    | .error e => _
    | .ok (k, w3) => _) = _
  unfold set_freq_num
  rw [if_pos ⟨le_refl v, hnest⟩,
    send_command_connected { st with min_freq := v } sp _ hsp hop, appendTerm_cmd]
  rfl

theorem set_max_freq_num_noadjust (st : VRGState) (sp : SerialPort) (dev : Int) (v : ℚ)
    (hsp : st.serial_port = some sp) (hop : sp.is_open = true)
    (hlo : st.min_freq_hard_limit ≤ v) (hhi : v ≤ st.max_freq_hard_limit)
    (hdev : ¬(v < (dev : ℚ) * (1 / 1000))) :
    set_max_freq_num st dev v =
      { error := none, state := { st with max_freq := v }, devKHz := dev,
        writes := ["S2" ++ padZeroInt 5 (ratTrunc (v * 1000)) ++ "\r", "RQ\r"] } := by
  unfold set_max_freq_num
  rw [if_pos ⟨hlo, hhi⟩, send_command_connected st sp _ hsp hop, appendTerm_cmd]
  dsimp only
  rw [get_freq_connected { st with max_freq := v } sp dev hsp hop]
  dsimp only
  rw [if_neg hdev]
  rfl

theorem set_max_freq_num_adjust (st : VRGState) (sp : SerialPort) (dev : Int) (v : ℚ)
    (hsp : st.serial_port = some sp) (hop : sp.is_open = true)
    (hlo : st.min_freq_hard_limit ≤ v) (hhi : v ≤ st.max_freq_hard_limit)
    (hdev : v < (dev : ℚ) * (1 / 1000)) (hnest : st.min_freq ≤ v) :
    set_max_freq_num st dev v =
      { error := none, state := { st with max_freq := v }, devKHz := ratTrunc (v * 1000),
        writes := ["S2" ++ padZeroInt 5 (ratTrunc (v * 1000)) ++ "\r", "RQ\r",
                   "SF" ++ padZeroInt 5 (ratTrunc (v * 1000)) ++ "\r"] } := by
  unfold set_max_freq_num
  rw [if_pos ⟨hlo, hhi⟩, send_command_connected st sp _ hsp hop, appendTerm_cmd]
  dsimp only
  rw [get_freq_connected { st with max_freq := v } sp dev hsp hop]
  dsimp only
  rw [if_pos hdev]
  show (match set_freq_num { st with max_freq := v } v with
    | .error e => _
    | .ok (k, w3) => _) = _
  unfold set_freq_num
  rw [if_pos ⟨hnest, le_refl v⟩,
    send_command_connected { st with max_freq := v } sp _ hsp hop, appendTerm_cmd]
  rfl

theorem set_min_freq_num_nested_reject (st : VRGState) (sp : SerialPort) (dev : Int) (v : ℚ)
    (hsp : st.serial_port = some sp) (hop : sp.is_open = true)
    (hlo : st.min_freq_hard_limit ≤ v) (hhi : v ≤ st.max_freq_hard_limit)
    (hdev : (dev : ℚ) * (1 / 1000) < v) (hnest : ¬(v ≤ st.max_freq)) :
    set_min_freq_num st dev v =
      { error := some .valueError, state := { st with min_freq := v }, devKHz := dev,
        writes := ["S1" ++ padZeroInt 5 (ratTrunc (v * 1000)) ++ "\r", "RQ\r"] } := by
  unfold set_min_freq_num
  rw [if_pos ⟨hlo, hhi⟩, send_command_connected st sp _ hsp hop, appendTerm_cmd]
  dsimp only
  rw [get_freq_connected { st with min_freq := v } sp dev hsp hop]
  dsimp only
  rw [if_pos hdev]
  show (match set_freq_num { st with min_freq := v } v with
    | .error e => _
    | .ok (k, w3) => _) = _
  unfold set_freq_num
  rw [if_neg (fun hc => hnest hc.2)]
  rfl

theorem set_max_freq_num_nested_reject (st : VRGState) (sp : SerialPort) (dev : Int) (v : ℚ)
    (hsp : st.serial_port = some sp) (hop : sp.is_open = true)
    (hlo : st.min_freq_hard_limit ≤ v) (hhi : v ≤ st.max_freq_hard_limit)
    (hdev : v < (dev : ℚ) * (1 / 1000)) (hnest : ¬(st.min_freq ≤ v)) :
    set_max_freq_num st dev v =
      { error := some .valueError, state := { st with max_freq := v }, devKHz := dev,
        writes := ["S2" ++ padZeroInt 5 (ratTrunc (v * 1000)) ++ "\r", "RQ\r"] } := by
  unfold set_max_freq_num
  rw [if_pos ⟨hlo, hhi⟩, send_command_connected st sp _ hsp hop, appendTerm_cmd]
  dsimp only
  rw [get_freq_connected { st with max_freq := v } sp dev hsp hop]
  dsimp only
  rw [if_pos hdev]
  show (match set_freq_num { st with max_freq := v } v with
    | .error e => _
    | .ok (k, w3) => _) = _
  unfold set_freq_num
  rw [if_neg (fun hc => hnest hc.1)]
  rfl

theorem set_min_freq_num_disconnected (st : VRGState) (dev : Int) (v : ℚ)
    (hr : st.min_freq_hard_limit ≤ v ∧ v ≤ st.max_freq_hard_limit)
    (hconn : connOpen st = false) :
    set_min_freq_num st dev v =
      { error := some .notConnected, state := st, devKHz := dev, writes := [] } := by
  unfold set_min_freq_num
  rw [if_pos hr]
  unfold connOpen at hconn
  cases hsp : st.serial_port with
  | none =>
    rw [show send_command st ("S1" ++ padZeroInt 5 (ratTrunc (v * 1000))) = .error .notConnected
      from by unfold send_command; rw [hsp]]
  | some sp =>
    rw [hsp] at hconn
    dsimp only at hconn
    rw [show send_command st ("S1" ++ padZeroInt 5 (ratTrunc (v * 1000))) = .error .notConnected
      from by unfold send_command; rw [hsp]; dsimp only; rw [hconn]; simp]

theorem set_max_freq_num_disconnected (st : VRGState) (dev : Int) (v : ℚ)
    (hr : st.min_freq_hard_limit ≤ v ∧ v ≤ st.max_freq_hard_limit)
    (hconn : connOpen st = false) :
    set_max_freq_num st dev v =
      { error := some .notConnected, state := st, devKHz := dev, writes := [] } := by
  unfold set_max_freq_num
  rw [if_pos hr]
  unfold connOpen at hconn
  cases hsp : st.serial_port with
  | none =>
    rw [show send_command st ("S2" ++ padZeroInt 5 (ratTrunc (v * 1000))) = .error .notConnected
      from by unfold send_command; rw [hsp]]
  | some sp =>
    rw [hsp] at hconn
    dsimp only at hconn
    rw [show send_command st ("S2" ++ padZeroInt 5 (ratTrunc (v * 1000))) = .error .notConnected
      from by unfold send_command; rw [hsp]; dsimp only; rw [hconn]; simp]

theorem set_min_freq_num_inv (st : VRGState) (dev : Int) (v : ℚ)
    (h : (set_min_freq_num st dev v).error = none) :
    st.min_freq_hard_limit ≤ v ∧ v ≤ st.max_freq_hard_limit ∧
    ∃ sp, st.serial_port = some sp ∧ sp.is_open = true ∧
      ((¬((dev : ℚ) * (1 / 1000) < v) ∧
        set_min_freq_num st dev v =
          { error := none, state := { st with min_freq := v }, devKHz := dev,
            writes := ["S1" ++ padZeroInt 5 (ratTrunc (v * 1000)) ++ "\r", "RQ\r"] }) ∨
       (((dev : ℚ) * (1 / 1000) < v) ∧ v ≤ st.max_freq ∧
        set_min_freq_num st dev v =
          { error := none, state := { st with min_freq := v }, devKHz := ratTrunc (v * 1000),
            writes := ["S1" ++ padZeroInt 5 (ratTrunc (v * 1000)) ++ "\r", "RQ\r",
                       "SF" ++ padZeroInt 5 (ratTrunc (v * 1000)) ++ "\r"] })) := by
  by_cases hr : st.min_freq_hard_limit ≤ v ∧ v ≤ st.max_freq_hard_limit
  · by_cases hconn : connOpen st = true
    · obtain ⟨sp, hsp, hop⟩ : ∃ sp, st.serial_port = some sp ∧ sp.is_open = true := by
        unfold connOpen at hconn
        cases hsp : st.serial_port with
        | none => rw [hsp] at hconn; exact absurd hconn (by simp)
        | some sp => rw [hsp] at hconn; exact ⟨sp, rfl, hconn⟩
      refine ⟨hr.1, hr.2, sp, hsp, hop, ?_⟩
      by_cases hdev : (dev : ℚ) * (1 / 1000) < v
      · by_cases hnest : v ≤ st.max_freq
        · exact Or.inr ⟨hdev, hnest,
            set_min_freq_num_adjust st sp dev v hsp hop hr.1 hr.2 hdev hnest⟩
        · exfalso
          rw [set_min_freq_num_nested_reject st sp dev v hsp hop hr.1 hr.2 hdev hnest] at h
          simp at h
      · exact Or.inl ⟨hdev,
          set_min_freq_num_noadjust st sp dev v hsp hop hr.1 hr.2 hdev⟩
    · exfalso
      rw [set_min_freq_num_disconnected st dev v hr (by
        cases hc : connOpen st with
        | false => rfl
        | true => exact absurd hc hconn)] at h
      simp at h
  · exfalso
    rw [set_min_freq_num_reject st dev v hr] at h
    simp at h

theorem set_max_freq_num_inv (st : VRGState) (dev : Int) (v : ℚ)
    (h : (set_max_freq_num st dev v).error = none) :
    st.min_freq_hard_limit ≤ v ∧ v ≤ st.max_freq_hard_limit ∧
    ∃ sp, st.serial_port = some sp ∧ sp.is_open = true ∧
      ((¬(v < (dev : ℚ) * (1 / 1000)) ∧
        set_max_freq_num st dev v =
          { error := none, state := { st with max_freq := v }, devKHz := dev,
            writes := ["S2" ++ padZeroInt 5 (ratTrunc (v * 1000)) ++ "\r", "RQ\r"] }) ∨
       ((v < (dev : ℚ) * (1 / 1000)) ∧ st.min_freq ≤ v ∧
        set_max_freq_num st dev v =
          { error := none, state := { st with max_freq := v }, devKHz := ratTrunc (v * 1000),
            writes := ["S2" ++ padZeroInt 5 (ratTrunc (v * 1000)) ++ "\r", "RQ\r",
                       "SF" ++ padZeroInt 5 (ratTrunc (v * 1000)) ++ "\r"] })) := by
  by_cases hr : st.min_freq_hard_limit ≤ v ∧ v ≤ st.max_freq_hard_limit
  · by_cases hconn : connOpen st = true
    · obtain ⟨sp, hsp, hop⟩ : ∃ sp, st.serial_port = some sp ∧ sp.is_open = true := by
        unfold connOpen at hconn
        cases hsp : st.serial_port with
        | none => rw [hsp] at hconn; exact absurd hconn (by simp)
        | some sp => rw [hsp] at hconn; exact ⟨sp, rfl, hconn⟩
      refine ⟨hr.1, hr.2, sp, hsp, hop, ?_⟩
      by_cases hdev : v < (dev : ℚ) * (1 / 1000)
      · by_cases hnest : st.min_freq ≤ v
        · exact Or.inr ⟨hdev, hnest,
            set_max_freq_num_adjust st sp dev v hsp hop hr.1 hr.2 hdev hnest⟩
        · exfalso
          rw [set_max_freq_num_nested_reject st sp dev v hsp hop hr.1 hr.2 hdev hnest] at h
          simp at h
      · exact Or.inl ⟨hdev,
          set_max_freq_num_noadjust st sp dev v hsp hop hr.1 hr.2 hdev⟩
    · exfalso
      rw [set_max_freq_num_disconnected st dev v hr (by
        cases hc : connOpen st with
        | false => rfl
        | true => exact absurd hc hconn)] at h
      simp at h
  · exfalso
    rw [set_max_freq_num_reject st dev v hr] at h
    simp at h

/-- C2: for every connected driver, every query and every sequence of device
response lines, `_send_query` returns exactly the first line free of the
literal marker text "target" (reading past the stream is a timeout, which
yields the clean empty line), so the returned string never contains the
marker; and the transport trace is one discard-input/resend-identical-query/
read round per line up to and including the first clean one, with no retry
cap and no backoff (the response list is arbitrary and every marker line
costs exactly one more round). -/
theorem vrg_c2_query_marker_filtered (st : VRGState) (sp : SerialPort) (q : String)
    (responses : List String) (hsp : st.serial_port = some sp) (hop : sp.is_open = true) :
    send_query st q responses =
      .ok (firstCleanLineSpec responses, retryTraceSpec (appendTerm q) responses) ∧
    hasTarget (firstCleanLineSpec responses) = false :=
  ⟨send_query_connected st sp q responses hsp hop, hasTarget_firstClean responses⟩

/-- Witness for C2: a connected driver sends `RQ`, first receives a line of
"target" spam, resends the identical query, and returns the second, clean
line; the caller never sees the marker. -/
theorem vrg_c2_witness :
    send_query stD "RQ" ["spam target spam", "RQ40650"] =
      .ok ("RQ40650",
        [TOp.resetInput, TOp.write "RQ\r", TOp.readLine "spam target spam",
         TOp.resetInput, TOp.write "RQ\r", TOp.readLine "RQ40650"]) ∧
    hasTarget "RQ40650" = false := by
  have h := vrg_c2_query_marker_filtered stD spOpen "RQ" ["spam target spam", "RQ40650"] rfl rfl
  refine ⟨?_, by decide⟩
  rw [h.1]
  simp only [Except.ok.injEq]
  decide

/-- C3: for every connected driver and every integer `v` with
`0 ≤ v ≤ max_power`, the power setter writes exactly the wire command `SP`
followed by `v` zero padded to 4 digits, terminated by a carriage return,
and nothing else. -/
theorem vrg_c3_set_power_wire (st : VRGState) (sp : SerialPort) (v : Int)
    (hsp : st.serial_port = some sp) (hop : sp.is_open = true)
    (h0 : 0 ≤ v) (hmax : v ≤ st.max_power) :
    set_power st (.int v) = .ok ["SP" ++ padZeroInt 4 v ++ "\r"] := by
  show (if 0 ≤ v ∧ v ≤ st.max_power then send_command st ("SP" ++ padZeroInt 4 v)
    else .error .valueError) = _
  rw [if_pos ⟨h0, hmax⟩, send_command_connected st sp _ hsp hop, appendTerm_cmd]

/-- Witness for C3: on the default driver (max power 800), setting the power
to 300 writes exactly "SP0300" followed by a carriage return. -/
theorem vrg_c3_witness : set_power stD (.int 300) = .ok ["SP0300\r"] := by
  have h := vrg_c3_set_power_wire stD spOpen 300 rfl rfl (by decide) (by decide)
  rw [h]
  decide

/-- C4: for every driver state, passing the power setter a float or other
non-integer value fails with the TypeError kind, and passing an integer
outside `[0, max_power]` fails with the ValueError kind; in each case the
result is the error alone — an error result of `set_power` carries no write
list, reflecting that the exception is raised before `_send_command` is ever
called, so no transport write happens. -/
theorem vrg_c4_set_power_invalid (st : VRGState) (value : PyVal) :
    (∀ x, value = .float x → set_power st value = .error .typeError) ∧
    (value = .other → set_power st value = .error .typeError) ∧
    (∀ i, value = .int i → (i < 0 ∨ st.max_power < i) → set_power st value = .error .valueError) := by
  refine ⟨?_, ?_, ?_⟩
  · rintro x rfl
    rfl
  · rintro rfl
    rfl
  · rintro i rfl hout
    show (if 0 ≤ i ∧ i ≤ st.max_power then send_command st ("SP" ++ padZeroInt 4 i)
      else .error .valueError) = _
    rw [if_neg]
    rintro ⟨hge, hle⟩
    rcases hout with hlt | hgt
    · omega
    · omega

/-- Witness for C4: the spec scenario — with `max_power = 1000`,
`set_power(1200)` fails validation with the ValueError kind, and a float
argument fails with the TypeError kind; neither writes anything. -/
theorem vrg_c4_witness :
    set_power stP (.int 1200) = .error .valueError ∧
    set_power stP (.float (5 / 2)) = .error .typeError := by
  constructor
  · exact (vrg_c4_set_power_invalid stP (.int 1200)).2.2 1200 rfl (Or.inr (by decide))
  · exact (vrg_c4_set_power_invalid stP (.float (5 / 2))).1 (5 / 2) rfl

/-- C6: for every status byte value `s` in 0..7, the decoded flags equal the
bits of `s`: `is_enabled` is bit 2, `is_overtemp` is bit 1 and
`is_interlocked` is bit 0 (1 meaning interlock open); in particular
`s = 0b100` decodes to enabled, not overtemperature, not interlocked.  The
decode goes through Python's `bin()` string and negative indexing exactly as
the source does, including the short `bin` strings for `s < 4`. -/
theorem vrg_c6_status_decode :
    (∀ s : Fin 8, is_enabled (s : Nat) = Nat.testBit (s : Nat) 2 ∧
      is_overtemp (s : Nat) = Nat.testBit (s : Nat) 1 ∧
      is_interlocked (s : Nat) = Nat.testBit (s : Nat) 0) ∧
    (is_enabled 4 = true ∧ is_overtemp 4 = false ∧ is_interlocked 4 = false) := by
  constructor
  · decide
  · decide

/-- C7: every command and every query invoked while no connection exists
(no serial port, or a closed one) fails fast with the NotConnectedError
kind; the error result carries no transport trace because the exception is
raised before the buffer reset, write or read.  The status byte read (`GS`
exchange) is the claim's named instance. -/
theorem vrg_c7_fail_fast (st : VRGState) (cmd q : String) (responses : List String)
    (h : connOpen st = false) :
    send_command st cmd = .error .notConnected ∧
    send_query st q responses = .error .notConnected ∧
    status_byte_exchange st responses = .error .notConnected := by
  unfold connOpen at h
  have hsc : send_command st cmd = .error .notConnected := by
    unfold send_command
    cases hsp : st.serial_port with
    | none => rfl
    | some sp =>
      rw [hsp] at h
      dsimp only at h
      dsimp only
      rw [h]
      simp
  have hsq : ∀ qq, send_query st qq responses = .error .notConnected := by
    intro qq
    unfold send_query
    cases hsp : st.serial_port with
    | none => rfl
    | some sp =>
      rw [hsp] at h
      dsimp only at h
      dsimp only
      rw [h]
      simp
  exact ⟨hsc, hsq q, hsq "GS"⟩

/-- Witness for C7: with a driver constructed without a COM port, a command,
a query and the status byte read all fail with the NotConnectedError kind
and perform no transport call. -/
theorem vrg_c7_witness :
    send_command stNone "ER" = .error .notConnected ∧
    send_query stNone "RQ" [] = .error .notConnected ∧
    status_byte_exchange stNone [] = .error .notConnected :=
  vrg_c7_fail_fast stNone "ER" "RQ" [] rfl

/-- C9 counterexample: when the underlying serial constructor raises (the
port is unavailable), `open_connection` evaluates to `none` — its result
type has no failure channel at all, the exception is caught and swallowed
with only a printed message, so the caller receives the silent sentinel
`None` rather than the typed ConnectionError-kind failure the claim
asserts. -/
theorem vrg_c9_counterexample :
    open_connection "COM1" (fun _ => .error "could not open port 'COM1'") = none := rfl

/-- C9 corrected: for every port and every outcome of the serial
constructor, `open_connection` returns the ready handle on success and
returns the sentinel `None` whenever the constructor raises; the exception
is never propagated (the function is total), but the failure is silent, not
a typed ConnectionError-kind result. -/
theorem vrg_c9_open_returns_sentinel (port : String)
    (serialCtor : String → Except String SerialPort) :
    (∀ e, serialCtor port.toUpper = .error e → open_connection port serialCtor = none) ∧
    (∀ sp, serialCtor port.toUpper = .ok sp → open_connection port serialCtor = some sp) := by
  constructor
  · intro e he
    unfold open_connection
    rw [he]
  · intro sp hsp
    unfold open_connection
    rw [hsp]

/-- Witness for C9: a successful constructor outcome yields the ready
handle. -/
theorem vrg_c9_witness :
    open_connection "com3" (fun _ => .ok spOpen) = some spOpen :=
  (vrg_c9_open_returns_sentinel "com3" (fun _ => .ok spOpen)).2 spOpen rfl

theorem set_min_freq_toNum (st : VRGState) (dev : Int) (value : PyVal) (v : ℚ)
    (hv : value.toNum = some v) :
    set_min_freq st dev value = set_min_freq_num st dev v := by
  cases value with
  | int i =>
    simp [PyVal.toNum] at hv
    rw [← hv]
    rfl
  | float x =>
    simp [PyVal.toNum] at hv
    rw [← hv]
    rfl
  | other => simp [PyVal.toNum] at hv

theorem set_max_freq_toNum (st : VRGState) (dev : Int) (value : PyVal) (v : ℚ)
    (hv : value.toNum = some v) :
    set_max_freq st dev value = set_max_freq_num st dev v := by
  cases value with
  | int i =>
    simp [PyVal.toNum] at hv
    rw [← hv]
    rfl
  | float x =>
    simp [PyVal.toNum] at hv
    rw [← hv]
    rfl
  | other => simp [PyVal.toNum] at hv

theorem set_freq_toNum (st : VRGState) (value : PyVal) (v : ℚ)
    (hv : value.toNum = some v) :
    set_freq st value = set_freq_num st v := by
  cases value with
  | int i =>
    simp [PyVal.toNum] at hv
    rw [← hv]
    rfl
  | float x =>
    simp [PyVal.toNum] at hv
    rw [← hv]
    rfl
  | other => simp [PyVal.toNum] at hv

/-- C1 counterexample: the invariant `allowed_min ≤ allowed_max` is not
preserved by the `min_freq` setter.  Concretely: hard limits 25..42 MHz,
allowed window previously narrowed to 25..30 MHz, device frequency 40 MHz;
setting `min_freq = 35` passes validation (35 lies within the hard limits —
the setter never compares against the cached `_max_freq`), transmits
`S135000`, and leaves the cached window with `min_freq = 35 > 30 =
max_freq`, violating the claimed invariant after a successful, transmitted
mutation. -/
theorem vrg_c1_counterexample :
    set_min_freq stC 40000 (.float 35) =
      { error := none, state := { stC with min_freq := 35 }, devKHz := 40000,
        writes := ["S135000\r", "RQ\r"] } ∧
    ({ stC with min_freq := 35 } : VRGState).max_freq <
      ({ stC with min_freq := 35 } : VRGState).min_freq := by
  constructor
  · have hT : ratTrunc ((35 : ℚ) * 1000) = 35000 := by
      rw [ratTrunc_eq]
      norm_num
    have h := set_min_freq_num_noadjust stC spOpen 40000 35 rfl rfl
      (by norm_num [stC]) (by norm_num [stC]) (by norm_num)
    rw [show set_min_freq stC 40000 (.float 35) = set_min_freq_num stC 40000 35 from rfl,
      h, hT]
    have hs : "S1" ++ padZeroInt 5 (35000 : Int) ++ "\r" = "S135000\r" := by decide
    rw [hs]
  · norm_num [stC]

/-- C1 corrected: each allowed-window setter validates its new bound against
the hard limits only — a non numeric value fails with the TypeError kind and
a bound outside `[hard_min, hard_max]` fails with the ValueError kind, in
both cases before any byte is transmitted and with the cached window
untouched; a successful call leaves the freshly written bound within the
hard limits and the opposite cached bound unchanged; and the getters
overwrite the cached bound with whatever value the device reports,
unconditionally.  The full chain `allowed_min ≤ allowed_max` is NOT
enforced (see the counterexample). -/
theorem vrg_c1_hard_limit_validation (st : VRGState) (dev : Int) (value : PyVal) :
    (value = .other →
      set_min_freq st dev value =
        { error := some .typeError, state := st, devKHz := dev, writes := [] } ∧
      set_max_freq st dev value =
        { error := some .typeError, state := st, devKHz := dev, writes := [] }) ∧
    (∀ v, value.toNum = some v →
      ¬(st.min_freq_hard_limit ≤ v ∧ v ≤ st.max_freq_hard_limit) →
      set_min_freq st dev value =
        { error := some .valueError, state := st, devKHz := dev, writes := [] } ∧
      set_max_freq st dev value =
        { error := some .valueError, state := st, devKHz := dev, writes := [] }) ∧
    (∀ v, value.toNum = some v → (set_min_freq st dev value).error = none →
      st.min_freq_hard_limit ≤ (set_min_freq st dev value).state.min_freq ∧
      (set_min_freq st dev value).state.min_freq ≤ st.max_freq_hard_limit ∧
      (set_min_freq st dev value).state.max_freq = st.max_freq) ∧
    (∀ v, value.toNum = some v → (set_max_freq st dev value).error = none →
      st.min_freq_hard_limit ≤ (set_max_freq st dev value).state.max_freq ∧
      (set_max_freq st dev value).state.max_freq ≤ st.max_freq_hard_limit ∧
      (set_max_freq st dev value).state.min_freq = st.min_freq) ∧
    (∀ (k : ℚ) (sp : SerialPort), st.serial_port = some sp → sp.is_open = true →
      get_min_freq st k =
        .ok ({ st with min_freq := k * (1 / 1000) }, k * (1 / 1000), ["R1\r"]) ∧
      get_max_freq st k =
        .ok ({ st with max_freq := k * (1 / 1000) }, k * (1 / 1000), ["R2\r"])) := by
  refine ⟨?_, ?_, ?_, ?_, ?_⟩
  · rintro rfl
    exact ⟨rfl, rfl⟩
  · intro v hv hout
    rw [set_min_freq_toNum st dev value v hv, set_max_freq_toNum st dev value v hv]
    exact ⟨set_min_freq_num_reject st dev v hout, set_max_freq_num_reject st dev v hout⟩
  · intro v hv herr
    rw [set_min_freq_toNum st dev value v hv] at herr ⊢
    obtain ⟨hlo, hhi, sp, hsp, hop, hcase⟩ := set_min_freq_num_inv st dev v herr
    rcases hcase with ⟨hdev, heq⟩ | ⟨hdev, hnest, heq⟩ <;> rw [heq] <;> exact ⟨hlo, hhi, rfl⟩
  · intro v hv herr
    rw [set_max_freq_toNum st dev value v hv] at herr ⊢
    obtain ⟨hlo, hhi, sp, hsp, hop, hcase⟩ := set_max_freq_num_inv st dev v herr
    rcases hcase with ⟨hdev, heq⟩ | ⟨hdev, hnest, heq⟩ <;> rw [heq] <;> exact ⟨hlo, hhi, rfl⟩
  · intro k sp hsp hop
    constructor
    · unfold get_min_freq
      rw [hsp]
      dsimp only
      rw [hop]
      simp
    · unfold get_max_freq
      rw [hsp]
      dsimp only
      rw [hop]
      simp

/-- Witness for the corrected C1: on the default driver an out-of-hard-range
minimum (50 MHz) is rejected with no state change and no bytes, and a
successful `min_freq = 30` leaves the written bound within the hard
limits. -/
theorem vrg_c1_witness :
    set_min_freq stD 30000 (.float 50) =
      { error := some .valueError, state := stD, devKHz := 30000, writes := [] } ∧
    (set_min_freq stD 30000 (.float 30)).state.min_freq ≤ stD.max_freq_hard_limit := by
  constructor
  · exact ((vrg_c1_hard_limit_validation stD 30000 (.float 50)).2.1 50 rfl
      (by norm_num [stD])).1
  · have herr : (set_min_freq stD 30000 (.float 30)).error = none := by
      rw [show set_min_freq stD 30000 (.float 30) = set_min_freq_num stD 30000 30 from rfl,
        set_min_freq_num_noadjust stD spOpen 30000 30 rfl rfl
          (by norm_num [stD]) (by norm_num [stD]) (by norm_num)]
    exact ((vrg_c1_hard_limit_validation stD 30000 (.float 30)).2.2.1 30 rfl herr).2.1

/-- C5 counterexample: the frequency setter truncates, it does not round.
With the allowed window 25..42 MHz and the dyadic value
`f = 30 + 3/4096 = 30.000732421875` MHz (exactly representable as an IEEE
double), `f * 1000 = 30000.732...`, so `round` would give 30001 while the
driver computes `int(f * 1000) = 30000` and writes `SF30000` — not the
`SF30001` the claim's `round(f×1000)` prescribes. -/
theorem vrg_c5_counterexample :
    set_freq stD (.float (30 + 3 / 4096)) = .ok (30000, ["SF30000\r"]) ∧
    ratRoundSpec ((30 + 3 / 4096) * 1000) = 30001 ∧
    "SF" ++ padZeroInt 5 (ratRoundSpec ((30 + 3 / 4096) * 1000)) ++ "\r" ≠ "SF30000\r" := by
  have hR : ratRoundSpec ((30 + 3 / 4096 : ℚ) * 1000) = 30001 := by
    unfold ratRoundSpec
    rw [ratFloor_eq_floor]
    norm_num
  refine ⟨?_, hR, ?_⟩
  · have hT : ratTrunc ((30 + 3 / 4096 : ℚ) * 1000) = 30000 := by
      rw [ratTrunc_eq]
      norm_num
    show set_freq_num stD (30 + 3 / 4096) = _
    unfold set_freq_num
    rw [if_pos ⟨by norm_num [stD], by norm_num [stD]⟩,
      send_command_connected stD spOpen _ rfl rfl, appendTerm_cmd, hT]
    decide
  · rw [hR]
    decide

/-- C5 corrected: for every connected driver and every numeric `f` within
the cached allowed window, the frequency setter writes exactly `SF` followed
by `int(f × 1000)` — the kHz value truncated toward zero, as the spec's
operation table itself states — zero padded to 5 digits and terminated by a
carriage return. -/
theorem vrg_c5_set_freq_truncates (st : VRGState) (sp : SerialPort) (value : PyVal) (v : ℚ)
    (hsp : st.serial_port = some sp) (hop : sp.is_open = true)
    (hv : value.toNum = some v) (hlo : st.min_freq ≤ v) (hhi : v ≤ st.max_freq) :
    set_freq st value =
      .ok (ratTrunc (v * 1000), ["SF" ++ padZeroInt 5 (ratTrunc (v * 1000)) ++ "\r"]) := by
  rw [set_freq_toNum st value v hv]
  unfold set_freq_num
  rw [if_pos ⟨hlo, hhi⟩, send_command_connected st sp _ hsp hop, appendTerm_cmd]

/-- Witness for the corrected C5: setting 38.45 MHz writes exactly
"SF38450" and a carriage return (38.45 × 1000 is an integer, so truncation
is exact). -/
theorem vrg_c5_witness : set_freq stD (.float (769 / 20)) = .ok (38450, ["SF38450\r"]) := by
  have h := vrg_c5_set_freq_truncates stD spOpen (.float (769 / 20)) (769 / 20) rfl rfl rfl
    (by norm_num [stD]) (by norm_num [stD])
  have hT : ratTrunc ((769 / 20 : ℚ) * 1000) = 38450 := by
    rw [ratTrunc_eq]
    norm_num
  rw [h, hT]
  decide

/-- C8: for every driver state and device state, a `min_freq`/`max_freq`
setter call with a non numeric value, or with a numeric value outside the
hard limits `[hard_min, hard_max]`, fails (TypeError kind, resp. ValueError
kind) with the driver state returned exactly as it was — both cached
allowed-window bounds unchanged — and with an empty write list: no bytes
reach the transport. -/
theorem vrg_c8_invalid_bound_leaves_window (st : VRGState) (dev : Int) (value : PyVal) :
    (value = .other →
      set_min_freq st dev value =
        { error := some .typeError, state := st, devKHz := dev, writes := [] } ∧
      set_max_freq st dev value =
        { error := some .typeError, state := st, devKHz := dev, writes := [] }) ∧
    (∀ v, value.toNum = some v →
      ¬(st.min_freq_hard_limit ≤ v ∧ v ≤ st.max_freq_hard_limit) →
      (set_min_freq st dev value).state = st ∧ (set_min_freq st dev value).writes = [] ∧
      (set_min_freq st dev value).error = some .valueError ∧
      (set_max_freq st dev value).state = st ∧ (set_max_freq st dev value).writes = [] ∧
      (set_max_freq st dev value).error = some .valueError) := by
  constructor
  · rintro rfl
    exact ⟨rfl, rfl⟩
  · intro v hv hout
    rw [set_min_freq_toNum st dev value v hv, set_max_freq_toNum st dev value v hv,
      set_min_freq_num_reject st dev v hout, set_max_freq_num_reject st dev v hout]
    exact ⟨rfl, rfl, rfl, rfl, rfl, rfl⟩

/-- Witness for C8: on the default driver, bounds of 99 MHz (above
`hard_max`) and 20 MHz (below `hard_min`) are rejected with the window left
exactly as it was and nothing written; a non numeric argument is rejected
the same way with the TypeError kind. -/
theorem vrg_c8_witness :
    (set_min_freq stD 30000 (.float 99)).state = stD ∧
    (set_min_freq stD 30000 (.float 99)).writes = [] ∧
    (set_max_freq stD 30000 (.float 20)).state = stD ∧
    (set_max_freq stD 30000 (.float 20)).writes = [] ∧
    set_min_freq stD 30000 .other =
      { error := some .typeError, state := stD, devKHz := 30000, writes := [] } := by
  have h99 := (vrg_c8_invalid_bound_leaves_window stD 30000 (.float 99)).2 99 rfl
    (by norm_num [stD])
  have h20 := (vrg_c8_invalid_bound_leaves_window stD 30000 (.float 20)).2 20 rfl
    (by norm_num [stD])
  have hoth := (vrg_c8_invalid_bound_leaves_window stD 30000 .other).1 rfl
  exact ⟨h99.1, h99.2.1, h20.2.2.2.1, h20.2.2.2.2.1, hoth.1⟩

/-- C10 counterexample: after a successful bound-setting operation the
device's frequency setting need NOT lie within the new allowed window.
With hard limits 25..42, cached window 25..30 and device frequency
40 MHz (40000 kHz), `min_freq = 26` succeeds (the device frequency 40 is
not below 26, so no follow-up `SF` is issued), yet 40 MHz is far above the
window's `max_freq = 30`: only the bound being set is enforced against the
device, never the opposite one. -/
theorem vrg_c10_counterexample :
    set_min_freq stC 40000 (.float 26) =
      { error := none, state := { stC with min_freq := 26 }, devKHz := 40000,
        writes := ["S126000\r", "RQ\r"] } ∧
    ({ stC with min_freq := 26 } : VRGState).max_freq < ((40000 : Int) : ℚ) * (1 / 1000) := by
  constructor
  · have hT : ratTrunc ((26 : ℚ) * 1000) = 26000 := by
      rw [ratTrunc_eq]
      norm_num
    have h := set_min_freq_num_noadjust stC spOpen 40000 26 rfl rfl
      (by norm_num [stC]) (by norm_num [stC]) (by norm_num)
    rw [show set_min_freq stC 40000 (.float 26) = set_min_freq_num stC 40000 26 from rfl,
      h, hT]
    have hs : "S1" ++ padZeroInt 5 (26000 : Int) ++ "\r" = "S126000\r" := by decide
    rw [hs]
  · norm_num [stC]

/-- C10 corrected: every successful `min_freq` (resp. `max_freq`) setter
call with numeric value `v` sends the `S1` (resp. `S2`) bound command,
queries the device's current frequency with `RQ`, and issues a follow-up
`SF` command exactly when that frequency is below (resp. above) `v`,
setting the device to `int(v × 1000)` kHz; afterwards the device's setting
in kHz is at least (resp. at most) `int(v × 1000)` — but it need not lie
within the full allowed window, because the opposite bound is never
checked (see the counterexample). -/
theorem vrg_c10_bound_setter_followup (st : VRGState) (dev : Int) (value : PyVal) (v : ℚ)
    (hv : value.toNum = some v) :
    ((set_min_freq st dev value).error = none →
      (set_min_freq st dev value).writes =
        ["S1" ++ padZeroInt 5 (ratTrunc (v * 1000)) ++ "\r", "RQ\r"] ++
          (if (dev : ℚ) * (1 / 1000) < v
            then ["SF" ++ padZeroInt 5 (ratTrunc (v * 1000)) ++ "\r"] else []) ∧
      (set_min_freq st dev value).devKHz =
        (if (dev : ℚ) * (1 / 1000) < v then ratTrunc (v * 1000) else dev) ∧
      ratTrunc (v * 1000) ≤ (set_min_freq st dev value).devKHz) ∧
    ((set_max_freq st dev value).error = none →
      (set_max_freq st dev value).writes =
        ["S2" ++ padZeroInt 5 (ratTrunc (v * 1000)) ++ "\r", "RQ\r"] ++
          (if v < (dev : ℚ) * (1 / 1000)
            then ["SF" ++ padZeroInt 5 (ratTrunc (v * 1000)) ++ "\r"] else []) ∧
      (set_max_freq st dev value).devKHz =
        (if v < (dev : ℚ) * (1 / 1000) then ratTrunc (v * 1000) else dev) ∧
      (set_max_freq st dev value).devKHz ≤ ratTrunc (v * 1000)) := by
  constructor
  · intro herr
    rw [set_min_freq_toNum st dev value v hv] at herr ⊢
    obtain ⟨hlo, hhi, sp, hsp, hop, hcase⟩ := set_min_freq_num_inv st dev v herr
    rcases hcase with ⟨hdev, heq⟩ | ⟨hdev, hnest, heq⟩
    · rw [heq]
      refine ⟨?_, ?_, ?_⟩
      · dsimp only
        rw [if_neg hdev, List.append_nil]
      · dsimp only
        rw [if_neg hdev]
      · dsimp only
        have h1 : v ≤ (dev : ℚ) * (1 / 1000) := not_lt.mp hdev
        have h2 : v * 1000 ≤ (dev : ℚ) := by
          have h3 := mul_le_mul_of_nonneg_right h1 (by norm_num : (0 : ℚ) ≤ 1000)
          calc v * 1000 ≤ (dev : ℚ) * (1 / 1000) * 1000 := h3
          _ = (dev : ℚ) := by ring
        exact ratTrunc_le_of_le _ _ h2
    · rw [heq]
      refine ⟨?_, ?_, ?_⟩
      · dsimp only
        rw [if_pos hdev]
        rfl
      · dsimp only
        rw [if_pos hdev]
      · dsimp only
        exact le_refl _
  · intro herr
    rw [set_max_freq_toNum st dev value v hv] at herr ⊢
    obtain ⟨hlo, hhi, sp, hsp, hop, hcase⟩ := set_max_freq_num_inv st dev v herr
    rcases hcase with ⟨hdev, heq⟩ | ⟨hdev, hnest, heq⟩
    · rw [heq]
      refine ⟨?_, ?_, ?_⟩
      · dsimp only
        rw [if_neg hdev, List.append_nil]
      · dsimp only
        rw [if_neg hdev]
      · dsimp only
        have h1 : (dev : ℚ) * (1 / 1000) ≤ v := not_lt.mp hdev
        have h2 : (dev : ℚ) ≤ v * 1000 := by
          have h3 := mul_le_mul_of_nonneg_right h1 (by norm_num : (0 : ℚ) ≤ 1000)
          calc (dev : ℚ) = (dev : ℚ) * (1 / 1000) * 1000 := by ring
          _ ≤ v * 1000 := h3
        exact le_ratTrunc_of_le _ _ h2
    · rw [heq]
      refine ⟨?_, ?_, ?_⟩
      · dsimp only
        rw [if_pos hdev]
        rfl
      · dsimp only
        rw [if_pos hdev]
      · dsimp only
        exact le_refl _

/-- Witness for the corrected C10: on the default driver with the device at
26 MHz, `min_freq = 30` succeeds, writes the bound command `S130000`,
queries the device with `RQ`, sees 26 < 30 and issues the follow-up
`SF30000`, after which the device setting is 30000 kHz. -/
theorem vrg_c10_witness :
    (set_min_freq stD 26000 (.float 30)).writes = ["S130000\r", "RQ\r", "SF30000\r"] ∧
    (set_min_freq stD 26000 (.float 30)).devKHz = 30000 := by
  have herr : (set_min_freq stD 26000 (.float 30)).error = none := by
    rw [show set_min_freq stD 26000 (.float 30) = set_min_freq_num stD 26000 30 from rfl,
      set_min_freq_num_adjust stD spOpen 26000 30 rfl rfl
        (by norm_num [stD]) (by norm_num [stD]) (by norm_num) (by norm_num [stD])]
  obtain ⟨hw, hk, _⟩ := (vrg_c10_bound_setter_followup stD 26000 (.float 30) 30 rfl).1 herr
  have hT : ratTrunc ((30 : ℚ) * 1000) = 30000 := by
    rw [ratTrunc_eq]
    norm_num
  have hdev : ((26000 : Int) : ℚ) * (1 / 1000) < 30 := by norm_num
  constructor
  · rw [hw, if_pos hdev, hT]
    decide
  · rw [hk, if_pos hdev, hT]
